import Mathlib

/-!
Shallow embedding of `src/music_assistant_models/auth.py`
(authentication / RBAC models of the music-assistant-models repository).

Machine representation choices:
- Python `Enum` classes become Lean inductive types; the `.value` string of
  each member is given by an explicit `value` function mirroring the source.
- `datetime` values are abstracted as `Nat` (an epoch instant); the ISO-8601
  rendering used on the wire is modelled as an invertible scalar encoding,
  since the spec places wire-format details beyond field shape out of scope.
- Python `list` becomes `List`, `dict` becomes an association list,
  `X | None` becomes `Option X`.
- `Role.has_permission` takes `PermissionScope ⊕ String`, mirroring the
  Python parameter type `PermissionScope | str`.
-/

namespace Auth

/-- Embedding of `UserRole` (legacy StrEnum: only admin and user). -/
inductive UserRole where
  | ADMIN
  | USER
deriving DecidableEq, Repr

/-- String value of each `UserRole` member, from the source. -/
def UserRole.value : UserRole → String
  | .ADMIN => "admin"
  | .USER => "user"

/-- Embedding of `PermissionScope` (the permission scopes for RBAC). -/
inductive PermissionScope where
  | PLAYER_CONTROL
  | PLAYER_VOLUME
  | PLAYER_QUEUE
  | PLAYER_POWER
  | PLAYER_VIEW
  | LIBRARY_READ
  | LIBRARY_WRITE
  | LIBRARY_DELETE
  | PLAYLIST_READ
  | PLAYLIST_WRITE
  | PLAYLIST_DELETE
  | PROVIDER_VIEW
  | PROVIDER_MANAGE
  | SYSTEM_SETTINGS
  | SYSTEM_ADMIN
  | USER_READ
  | USER_WRITE
  | USER_DELETE
deriving DecidableEq, Repr

/-- String value of each `PermissionScope` member, from the source. -/
def PermissionScope.value : PermissionScope → String
  | .PLAYER_CONTROL => "player.control"
  | .PLAYER_VOLUME => "player.volume"
  | .PLAYER_QUEUE => "player.queue"
  | .PLAYER_POWER => "player.power"
  | .PLAYER_VIEW => "player.view"
  | .LIBRARY_READ => "library.read"
  | .LIBRARY_WRITE => "library.write"
  | .LIBRARY_DELETE => "library.delete"
  | .PLAYLIST_READ => "playlist.read"
  | .PLAYLIST_WRITE => "playlist.write"
  | .PLAYLIST_DELETE => "playlist.delete"
  | .PROVIDER_VIEW => "provider.view"
  | .PROVIDER_MANAGE => "provider.manage"
  | .SYSTEM_SETTINGS => "system.settings"
  | .SYSTEM_ADMIN => "system.admin"
  | .USER_READ => "user.read"
  | .USER_WRITE => "user.write"
  | .USER_DELETE => "user.delete"

/-- Embedding of the enum value lookup `PermissionScope(s)` used in
`has_permission`: Python raises `ValueError` on an unknown value, which the
source catches; here the failure is the `none` case. -/
def PermissionScope.ofValue (s : String) : Option PermissionScope :=
  if s = "player.control" then some .PLAYER_CONTROL
  else if s = "player.volume" then some .PLAYER_VOLUME
  else if s = "player.queue" then some .PLAYER_QUEUE
  else if s = "player.power" then some .PLAYER_POWER
  else if s = "player.view" then some .PLAYER_VIEW
  else if s = "library.read" then some .LIBRARY_READ
  else if s = "library.write" then some .LIBRARY_WRITE
  else if s = "library.delete" then some .LIBRARY_DELETE
  else if s = "playlist.read" then some .PLAYLIST_READ
  else if s = "playlist.write" then some .PLAYLIST_WRITE
  else if s = "playlist.delete" then some .PLAYLIST_DELETE
  else if s = "provider.view" then some .PROVIDER_VIEW
  else if s = "provider.manage" then some .PROVIDER_MANAGE
  else if s = "system.settings" then some .SYSTEM_SETTINGS
  else if s = "system.admin" then some .SYSTEM_ADMIN
  else if s = "user.read" then some .USER_READ
  else if s = "user.write" then some .USER_WRITE
  else if s = "user.delete" then some .USER_DELETE
  else none

/-- Embedding of `AuthProviderType` (StrEnum). -/
inductive AuthProviderType where
  | BUILTIN
  | HOME_ASSISTANT
deriving DecidableEq, Repr

/-- String value of each `AuthProviderType` member, from the source. -/
def AuthProviderType.value : AuthProviderType → String
  | .BUILTIN => "builtin"
  | .HOME_ASSISTANT => "homeassistant"

/-- Resolution of an `AuthProviderType` from its string value. -/
def AuthProviderType.ofValue (s : String) : Option AuthProviderType :=
  if s = "builtin" then some .BUILTIN
  else if s = "homeassistant" then some .HOME_ASSISTANT
  else none

/-- JSON-like values, the target of the serialization the records support
(mashumaro `DataClassORJSONMixin`).  A `datetime` instant serializes as
`Json.num` of its abstracted epoch value (the ISO-8601 text rendering is
out of scope; only its invertibility matters for round-trips). -/
inductive Json where
  | null
  | bool (b : Bool)
  | str (s : String)
  | num (n : Nat)
  | arr (xs : List Json)
  | obj (fields : List (String × Json))

/-- Embedding of the `Role` dataclass. -/
structure Role where
  role_id : String
  name : String
  description : String
  is_system : Bool
  permissions : List PermissionScope := []
  created_at : Option Nat := none
deriving DecidableEq, Repr

/-- Embedding of `Role.has_permission`: normalize a string argument through
the scope registry (unresolvable strings return false), then apply the
`SYSTEM_ADMIN` wildcard short-circuit, then plain membership. -/
def Role.has_permission (self : Role) (permission : PermissionScope ⊕ String) : Bool :=
  match (match permission with
         | .inl p => some p
         | .inr s => PermissionScope.ofValue s) with
  | none => false
  | some p =>
    if PermissionScope.SYSTEM_ADMIN ∈ self.permissions then true
    else p ∈ self.permissions

/-- Embedding of the `User` dataclass.  `preferences` is `dict[str, Any]`
in the source, modelled as an association list of JSON values. -/
structure User where
  user_id : String
  username : String
  role : String
  enabled : Bool := true
  created_at : Nat
  display_name : Option String := none
  avatar_url : Option String := none
  preferences : List (String × Json) := []
  provider_filter : List String := []
  player_filter : List String := []

/-- Embedding of the `UserAuthProvider` dataclass. -/
structure UserAuthProvider where
  link_id : String
  user_id : String
  provider_type : AuthProviderType
  provider_user_id : String
  created_at : Nat
deriving DecidableEq, Repr

/-- Embedding of the `AuthToken` dataclass. -/
structure AuthToken where
  token_id : String
  user_id : String
  token_hash : String
  name : String
  created_at : Nat
  expires_at : Option Nat := none
  last_used_at : Option Nat := none
  is_long_lived : Bool := false
deriving DecidableEq, Repr

/-- Embedding of the `DEFAULT_ROLES` table (dict key order preserved). -/
def DEFAULT_ROLES : List (String × Role) :=
  [ ("admin",
     { role_id := "admin"
       name := "Administrator"
       description := "Full system access with all permissions"
       is_system := true
       permissions := [.SYSTEM_ADMIN] }),
    ("user",
     { role_id := "user"
       name := "Standard User"
       description := "Standard user with basic playback and library access"
       is_system := true
       permissions := [.PLAYER_CONTROL, .PLAYER_VOLUME, .PLAYER_QUEUE,
                       .PLAYER_VIEW, .LIBRARY_READ, .PLAYLIST_READ,
                       .PLAYLIST_WRITE, .PROVIDER_VIEW] }),
    ("guest",
     { role_id := "guest"
       name := "Guest"
       description := "Limited read-only access"
       is_system := true
       permissions := [.PLAYER_VIEW, .LIBRARY_READ, .PLAYLIST_READ] }),
    ("dj",
     { role_id := "dj"
       name := "DJ"
       description := "Playback control and queue management without library modifications"
       is_system := true
       permissions := [.PLAYER_CONTROL, .PLAYER_VOLUME, .PLAYER_QUEUE,
                       .PLAYER_VIEW, .LIBRARY_READ, .PLAYLIST_READ] }) ]

/-- The admin entry of `DEFAULT_ROLES`. -/
def adminRole : Role := (DEFAULT_ROLES.get ⟨0, by decide⟩).2

/-- The user entry of `DEFAULT_ROLES`. -/
def userRole : Role := (DEFAULT_ROLES.get ⟨1, by decide⟩).2

/-- The guest entry of `DEFAULT_ROLES`. -/
def guestRole : Role := (DEFAULT_ROLES.get ⟨2, by decide⟩).2

/-- The dj entry of `DEFAULT_ROLES`. -/
def djRole : Role := (DEFAULT_ROLES.get ⟨3, by decide⟩).2

/-- Modelled from the spec: the permission check performed on a caller for
whom no `Role` could be resolved.  The check itself lives in the external
callers of this module (not under src/); per the failure policy a `None`
role is treated as "no permission" rather than an error. -/
def check_permission (role : Option Role) (permission : PermissionScope ⊕ String) : Bool :=
  match role with
  | none => false
  | some r => r.has_permission permission

/-- Modelled from the spec: the `GuestAccessInfo` record shape (absent from
src/): `enabled`, nullable `guest_url` and `guest_token`, four capability
flags, and player/provider filter lists. -/
structure GuestAccessInfo where
  enabled : Bool
  guest_url : Option String := none
  guest_token : Option String := none
  can_play_media : Bool := false
  can_control_queue : Bool := false
  can_control_playback : Bool := false
  can_control_volume : Bool := false
  player_filter : List String := []
  provider_filter : List String := []
deriving DecidableEq, Repr

/-- Modelled from the spec: computation of the `GuestAccessInfo` projection
(absent from src/) from the current guest-access configuration.  When
`enabled` is false the url, the token and all four capability flags are
dropped regardless of what was previously configured, so the descriptor
never carries stale grants from a prior enablement. -/
def GuestAccessInfo.compute (enabled : Bool) (url token : Option String)
    (play queue playback volume : Bool)
    (players providers : List String) : GuestAccessInfo :=
  if enabled then
    { enabled := true
      guest_url := url
      guest_token := token
      can_play_media := play
      can_control_queue := queue
      can_control_playback := playback
      can_control_volume := volume
      player_filter := players
      provider_filter := providers }
  else
    { enabled := false
      player_filter := players
      provider_filter := providers }

/-- Serialization of an optional string field (null when absent). -/
def encodeOptStr : Option String → Json
  | none => Json.null
  | some s => Json.str s

/-- Deserialization of a string field. -/
def decodeStr : Json → Option String
  | Json.str s => some s
  | _ => none

/-- Deserialization of an optional string field (null round-trips as none). -/
def decodeOptStr : Json → Option (Option String)
  | Json.null => some none
  | Json.str s => some (some s)
  | _ => none

/-- Deserialization of a boolean field. -/
def decodeBool : Json → Option Bool
  | Json.bool b => some b
  | _ => none

/-- Serialization of a timestamp field (ISO-8601 text abstracted to the
underlying instant). -/
def encodeTime (t : Nat) : Json := Json.num t

/-- Deserialization of a timestamp field. -/
def decodeTime : Json → Option Nat
  | Json.num n => some n
  | _ => none

/-- Serialization of an optional timestamp field: null when absent, never
omitted. -/
def encodeOptTime : Option Nat → Json
  | none => Json.null
  | some t => Json.num t

/-- Deserialization of an optional timestamp field (null round-trips as
none). -/
def decodeOptTime : Json → Option (Option Nat)
  | Json.null => some none
  | Json.num n => some (some n)
  | _ => none

/-- Deserialization of a list of strings. -/
def decodeStrList : List Json → Option (List String)
  | [] => some []
  | j :: js => do
    let s ← decodeStr j
    let rest ← decodeStrList js
    some (s :: rest)

/-- Deserialization of a single scope (serialized as its string value). -/
def decodeScope : Json → Option PermissionScope
  | Json.str s => PermissionScope.ofValue s
  | _ => none

/-- Deserialization of the `permissions` list of a role. -/
def decodeScopeList : List Json → Option (List PermissionScope)
  | [] => some []
  | j :: js => do
    let p ← decodeScope j
    let rest ← decodeScopeList js
    some (p :: rest)

/-- Deserialization of an `AuthProviderType` field (serialized as its
string value). -/
def decodeProviderType : Json → Option AuthProviderType
  | Json.str s => AuthProviderType.ofValue s
  | _ => none

/-- Serialization of a `Role`: every field present, enums as string values,
`permissions` as an ordered list of scope strings, absent `created_at` as
null. -/
def Role.to_dict (r : Role) : Json :=
  Json.obj [("role_id", Json.str r.role_id),
            ("name", Json.str r.name),
            ("description", Json.str r.description),
            ("is_system", Json.bool r.is_system),
            ("permissions", Json.arr (r.permissions.map (fun p => Json.str p.value))),
            ("created_at", encodeOptTime r.created_at)]

/-- Deserialization of a `Role`; any missing or ill-typed field is a
failure, never silently defaulted. -/
def Role.from_dict (j : Json) : Option Role :=
  match j with
  | Json.obj fields => do
    let role_id ← (fields.lookup "role_id").bind decodeStr
    let name ← (fields.lookup "name").bind decodeStr
    let description ← (fields.lookup "description").bind decodeStr
    let is_system ← (fields.lookup "is_system").bind decodeBool
    let permissions ← (fields.lookup "permissions").bind
      (fun v => match v with
                | Json.arr xs => decodeScopeList xs
                | _ => none)
    let created_at ← (fields.lookup "created_at").bind decodeOptTime
    some { role_id, name, description, is_system, permissions, created_at }
  | _ => none

/-- Serialization of a `User`. -/
def User.to_dict (u : User) : Json :=
  Json.obj [("user_id", Json.str u.user_id),
            ("username", Json.str u.username),
            ("role", Json.str u.role),
            ("enabled", Json.bool u.enabled),
            ("created_at", encodeTime u.created_at),
            ("display_name", encodeOptStr u.display_name),
            ("avatar_url", encodeOptStr u.avatar_url),
            ("preferences", Json.obj u.preferences),
            ("provider_filter", Json.arr (u.provider_filter.map Json.str)),
            ("player_filter", Json.arr (u.player_filter.map Json.str))]

/-- Deserialization of a `User`. -/
def User.from_dict (j : Json) : Option User :=
  match j with
  | Json.obj fields => do
    let user_id ← (fields.lookup "user_id").bind decodeStr
    let username ← (fields.lookup "username").bind decodeStr
    let role ← (fields.lookup "role").bind decodeStr
    let enabled ← (fields.lookup "enabled").bind decodeBool
    let created_at ← (fields.lookup "created_at").bind decodeTime
    let display_name ← (fields.lookup "display_name").bind decodeOptStr
    let avatar_url ← (fields.lookup "avatar_url").bind decodeOptStr
    let preferences ← (fields.lookup "preferences").bind
      (fun v => match v with
                | Json.obj fs => some fs
                | _ => none)
    let provider_filter ← (fields.lookup "provider_filter").bind
      (fun v => match v with
                | Json.arr xs => decodeStrList xs
                | _ => none)
    let player_filter ← (fields.lookup "player_filter").bind
      (fun v => match v with
                | Json.arr xs => decodeStrList xs
                | _ => none)
    some { user_id, username, role, enabled, created_at, display_name,
           avatar_url, preferences, provider_filter, player_filter }
  | _ => none

/-- Serialization of a `UserAuthProvider`. -/
def UserAuthProvider.to_dict (l : UserAuthProvider) : Json :=
  Json.obj [("link_id", Json.str l.link_id),
            ("user_id", Json.str l.user_id),
            ("provider_type", Json.str l.provider_type.value),
            ("provider_user_id", Json.str l.provider_user_id),
            ("created_at", encodeTime l.created_at)]

/-- Deserialization of a `UserAuthProvider`. -/
def UserAuthProvider.from_dict (j : Json) : Option UserAuthProvider :=
  match j with
  | Json.obj fields => do
    let link_id ← (fields.lookup "link_id").bind decodeStr
    let user_id ← (fields.lookup "user_id").bind decodeStr
    let provider_type ← (fields.lookup "provider_type").bind decodeProviderType
    let provider_user_id ← (fields.lookup "provider_user_id").bind decodeStr
    let created_at ← (fields.lookup "created_at").bind decodeTime
    some { link_id, user_id, provider_type, provider_user_id, created_at }
  | _ => none

/-- Serialization of an `AuthToken`: nullable `expires_at` and
`last_used_at` serialize as null when absent. -/
def AuthToken.to_dict (t : AuthToken) : Json :=
  Json.obj [("token_id", Json.str t.token_id),
            ("user_id", Json.str t.user_id),
            ("token_hash", Json.str t.token_hash),
            ("name", Json.str t.name),
            ("created_at", encodeTime t.created_at),
            ("expires_at", encodeOptTime t.expires_at),
            ("last_used_at", encodeOptTime t.last_used_at),
            ("is_long_lived", Json.bool t.is_long_lived)]

/-- Deserialization of an `AuthToken`. -/
def AuthToken.from_dict (j : Json) : Option AuthToken :=
  match j with
  | Json.obj fields => do
    let token_id ← (fields.lookup "token_id").bind decodeStr
    let user_id ← (fields.lookup "user_id").bind decodeStr
    let token_hash ← (fields.lookup "token_hash").bind decodeStr
    let name ← (fields.lookup "name").bind decodeStr
    let created_at ← (fields.lookup "created_at").bind decodeTime
    let expires_at ← (fields.lookup "expires_at").bind decodeOptTime
    let last_used_at ← (fields.lookup "last_used_at").bind decodeOptTime
    let is_long_lived ← (fields.lookup "is_long_lived").bind decodeBool
    some { token_id, user_id, token_hash, name, created_at, expires_at,
           last_used_at, is_long_lived }
  | _ => none

/-- Resolving the string value of a scope recovers that scope: the 18
registry values are pairwise distinct. -/
theorem PermissionScope.ofValue_value (p : PermissionScope) :
    PermissionScope.ofValue p.value = some p := by
  cases p <;> rfl

/-- Resolving the string value of a provider type recovers it. -/
theorem AuthProviderType.ofValue_roundtrip (a : AuthProviderType) :
    AuthProviderType.ofValue a.value = some a := by
  cases a <;> rfl

/-- Decoding an encoded permission list recovers the list, order included. -/
theorem decodeScopeList_map_value (ps : List PermissionScope) :
    decodeScopeList (ps.map (fun p => Json.str p.value)) = some ps := by
  induction ps with
  | nil => rfl
  | cons p ps ih => simp [decodeScopeList, decodeScope, PermissionScope.ofValue_value, ih]

/-- Decoding an encoded string list recovers the list. -/
theorem decodeStrList_map_str (ss : List String) :
    decodeStrList (ss.map Json.str) = some ss := by
  induction ss with
  | nil => rfl
  | cons s ss ih => simp [decodeStrList, decodeStr, ih]

/-- Decoding an encoded timestamp recovers the instant. -/
theorem decodeTime_encodeTime (t : Nat) : decodeTime (encodeTime t) = some t := rfl

/-- Decoding an encoded optional timestamp recovers it; in particular null
decodes back to the absent value. -/
theorem decodeOptTime_encodeOptTime (t : Option Nat) :
    decodeOptTime (encodeOptTime t) = some t := by
  cases t <;> rfl

/-- Decoding an encoded optional string recovers it. -/
theorem decodeOptStr_encodeOptStr (s : Option String) :
    decodeOptStr (encodeOptStr s) = some s := by
  cases s <;> rfl

/-- Claim C1: for every role whose permission list contains `SYSTEM_ADMIN`,
`has_permission` returns true for every scope in the registry, including
scopes not literally listed in the role's permissions. -/
theorem C1_system_admin_wildcard (r : Role) (s : PermissionScope)
    (h : PermissionScope.SYSTEM_ADMIN ∈ r.permissions) :
    r.has_permission (Sum.inl s) = true := by
  simp [Role.has_permission, h]

/-- Witness for C1: the default admin role holds the wildcard and is granted
`PLAYLIST_DELETE`, a scope not literally in its permission list. -/
theorem C1_system_admin_wildcard_witness :
    PermissionScope.SYSTEM_ADMIN ∈ adminRole.permissions ∧
      adminRole.has_permission (Sum.inl PermissionScope.PLAYLIST_DELETE) = true :=
  ⟨by decide, C1_system_admin_wildcard adminRole PermissionScope.PLAYLIST_DELETE (by decide)⟩

/-- Claim C2: without the `SYSTEM_ADMIN` wildcard, `has_permission` on a
registry scope is exact membership in the permission list; in particular the
default dj role denies `PLAYLIST_WRITE` and allows `PLAYER_QUEUE`, and a
role with an empty permission list denies every scope. -/
theorem C2_exact_membership :
    (∀ (r : Role) (s : PermissionScope),
        PermissionScope.SYSTEM_ADMIN ∉ r.permissions →
        (r.has_permission (Sum.inl s) = true ↔ s ∈ r.permissions)) ∧
    djRole.has_permission (Sum.inl PermissionScope.PLAYLIST_WRITE) = false ∧
    djRole.has_permission (Sum.inl PermissionScope.PLAYER_QUEUE) = true ∧
    (∀ (r : Role) (s : PermissionScope), r.permissions = [] →
        r.has_permission (Sum.inl s) = false) := by
  refine ⟨?_, by decide, by decide, ?_⟩
  · intro r s h
    simp [Role.has_permission, h]
  · intro r s h
    simp [Role.has_permission, h]

/-- Witness for C2: the dj role lacks the wildcard so its check against
`LIBRARY_READ` is membership, and a concrete role with no permissions
denies `PLAYER_VIEW`. -/
theorem C2_exact_membership_witness :
    PermissionScope.SYSTEM_ADMIN ∉ djRole.permissions ∧
      (djRole.has_permission (Sum.inl PermissionScope.LIBRARY_READ) = true ↔
        PermissionScope.LIBRARY_READ ∈ djRole.permissions) ∧
      Role.has_permission
        { role_id := "custom", name := "Custom", description := "", is_system := false,
          permissions := [] }
        (Sum.inl PermissionScope.PLAYER_VIEW) = false :=
  ⟨by decide,
   C2_exact_membership.1 djRole PermissionScope.LIBRARY_READ (by decide),
   C2_exact_membership.2.2.2
     { role_id := "custom", name := "Custom", description := "", is_system := false,
       permissions := [] }
     PermissionScope.PLAYER_VIEW rfl⟩

/-- Claim C3: a string that resolves against no registry value makes
`has_permission` return false for every role, wildcard included; the total
Lean function also embeds that the Python code catches the `ValueError` and
never lets an exception escape. -/
theorem C3_unresolvable_string_fails_closed (r : Role) (s : String)
    (h : PermissionScope.ofValue s = none) :
    r.has_permission (Sum.inr s) = false := by
  simp [Role.has_permission, h]

/-- Witness for C3: the admin role, which holds the wildcard, is still
denied the unresolvable string used by the spec scenario. -/
theorem C3_unresolvable_string_fails_closed_witness :
    PermissionScope.ofValue "not.a.real.scope" = none ∧
      adminRole.has_permission (Sum.inr "not.a.real.scope") = false :=
  ⟨by decide,
   C3_unresolvable_string_fails_closed adminRole "not.a.real.scope" (by decide)⟩

/-- Claim C4: the default role table lists exactly admin, user, guest and
dj, all four flagged `is_system`, and the admin permission list is exactly
the singleton `SYSTEM_ADMIN`. -/
theorem C4_default_roles_invariants :
    DEFAULT_ROLES.map Prod.fst = ["admin", "user", "guest", "dj"] ∧
    (∀ kv ∈ DEFAULT_ROLES, kv.2.is_system = true) ∧
    adminRole.permissions = [PermissionScope.SYSTEM_ADMIN] :=
  ⟨rfl, by decide, rfl⟩

/-- Claim C5: the guest permission set is a strict subset of the user
permission set. -/
theorem C5_guest_strict_subset_user :
    (∀ p ∈ guestRole.permissions, p ∈ userRole.permissions) ∧
    (∃ p ∈ userRole.permissions, p ∉ guestRole.permissions) := by
  decide

/-- Claim C6: a permission check with no resolved role yields false for any
requested permission, enum or string, instead of an error. -/
theorem C6_none_role_denied (p : PermissionScope ⊕ String) :
    check_permission none p = false := rfl

/-- Claim C7: a guest-access descriptor computed while guest access is
disabled carries a null url, a null token and all four capability flags
false, whatever url, token or flags the prior configuration held. -/
theorem C7_disabled_guest_access
    (url token : Option String) (play queue playback volume : Bool)
    (players providers : List String) :
    (GuestAccessInfo.compute false url token play queue playback volume
        players providers).enabled = false ∧
    (GuestAccessInfo.compute false url token play queue playback volume
        players providers).guest_url = none ∧
    (GuestAccessInfo.compute false url token play queue playback volume
        players providers).guest_token = none ∧
    (GuestAccessInfo.compute false url token play queue playback volume
        players providers).can_play_media = false ∧
    (GuestAccessInfo.compute false url token play queue playback volume
        players providers).can_control_queue = false ∧
    (GuestAccessInfo.compute false url token play queue playback volume
        players providers).can_control_playback = false ∧
    (GuestAccessInfo.compute false url token play queue playback volume
        players providers).can_control_volume = false := by
  simp [GuestAccessInfo.compute]

/-- Claim C8: serializing then deserializing any `Role`, `User`,
`AuthToken` or `UserAuthProvider` recovers the original in every field,
null optional timestamps included. -/
theorem C8_serialization_round_trip :
    (∀ r : Role, Role.from_dict r.to_dict = some r) ∧
    (∀ u : User, User.from_dict u.to_dict = some u) ∧
    (∀ t : AuthToken, AuthToken.from_dict t.to_dict = some t) ∧
    (∀ l : UserAuthProvider, UserAuthProvider.from_dict l.to_dict = some l) := by
  refine ⟨?_, ?_, ?_, ?_⟩
  · intro r
    simp [Role.from_dict, Role.to_dict, List.lookup, decodeStr, decodeBool,
          decodeOptTime_encodeOptTime, decodeScopeList_map_value]
  · intro u
    simp [User.from_dict, User.to_dict, List.lookup, decodeStr, decodeBool,
          decodeTime_encodeTime, decodeOptStr_encodeOptStr, decodeStrList_map_str]
  · intro t
    simp [AuthToken.from_dict, AuthToken.to_dict, List.lookup, decodeStr, decodeBool,
          decodeTime_encodeTime, decodeOptTime_encodeOptTime]
  · intro l
    simp [UserAuthProvider.from_dict, UserAuthProvider.to_dict, List.lookup, decodeStr,
          decodeTime_encodeTime, decodeProviderType, AuthProviderType.ofValue_roundtrip]

/-- Claim C9: every key of the default role table equals the `role_id` of
the role stored under it. -/
theorem C9_keys_match_role_ids : ∀ kv ∈ DEFAULT_ROLES, kv.1 = kv.2.role_id := by
  decide

/-- Witness for C9: the admin entry is in the table and its key equals its
role id. -/
theorem C9_keys_match_role_ids_witness :
    ("admin", adminRole) ∈ DEFAULT_ROLES ∧
      ("admin", adminRole).1 = ("admin", adminRole).2.role_id :=
  ⟨by decide, C9_keys_match_role_ids ("admin", adminRole) (by decide)⟩

/-- Claim C10: for any role, checking a scope passed as its string value
gives the same answer as checking the enum member itself. -/
theorem C10_string_enum_equivalence (r : Role) (s : PermissionScope) :
    r.has_permission (Sum.inr s.value) = r.has_permission (Sum.inl s) := by
  simp [Role.has_permission, PermissionScope.ofValue_value]

end Auth
